import Mathlib

/-!
Shallow embedding of the IceKing recommendation engine (TypeScript sources
under `src/`) and proofs about it.  Numbers are modelled as `ℚ` (JS numbers
on the inputs the program handles, with no floating-point rounding),
timestamps as `ℤ` milliseconds since the epoch, and JS truthiness of
optional numeric fields via the helper `jsOr` below.
-/

/-- Season status of a destination (`types/index.ts`). -/
inductive SeasonStatus where
  | OPEN
  | CLOSED
  | CLOSING_SOON
deriving DecidableEq

/-- Status field of a `ScoreResult` (`services/scoring.ts`). -/
inductive ScoreStatus where
  | OPEN
  | CLOSED
  | CLOSED_TODAY
deriving DecidableEq

structure Coordinates where
  lat : ℚ
  lng : ℚ
deriving DecidableEq

structure OperatingHours where
  weekdays : Option String := none
  weekends : Option String := none
deriving DecidableEq

/-- A destination, possibly already merged with its condition fields
(TS `Resort`; the numeric condition fields are optional there). -/
structure Resort where
  id : String
  name : String := ""
  bergfexId : String := ""
  coordinates : Coordinates := ⟨0, 0⟩
  seasonStatus : SeasonStatus
  openingDate : Option ℤ := none
  priority : ℚ := 0
  difficulty : String := ""
  hasPark : Bool := false
  hasNightRiding : Bool := false
  operatingHours : Option OperatingHours := none
  mountainDepth : Option ℚ := none
  valleyDepth : Option ℚ := none
  newSnow : Option ℚ := none
  liftsOpen : Option ℚ := none
  liftsTotal : Option ℚ := none
  lastUpdate : Option ℤ := none
deriving DecidableEq

/-- The pieces of `new Date()` that `scoring.ts` reads: `getDay()`
(0 = Sunday .. 6 = Saturday) and `getHours()*60 + getMinutes()`. -/
structure Clock where
  dayOfWeek : ℕ
  minutesOfDay : ℕ
deriving DecidableEq

/-- JS `x || d` on an optional numeric field: `undefined`/`null` and `0`
are falsy, every other number is kept. -/
def jsOr (x : Option ℚ) (d : ℚ) : ℚ :=
  match x with
  | none => d
  | some v => if v = 0 then d else v

/-- JS `Math.min` (no NaN inputs arise in this model). -/
def jsMin (a b : ℚ) : ℚ := if a ≤ b then a else b

/-- JS `Math.max`. -/
def jsMax (a b : ℚ) : ℚ := if a ≤ b then b else a

/-- `String.prototype.split` with a one-character separator (the only
separators this program uses: '-', ':'), written as structural
recursion over the character list. -/
def splitOnCharAux (c : Char) : List Char → List Char → List (List Char)
  | [], acc => [acc.reverse]
  | x :: xs, acc =>
    if x = c then acc.reverse :: splitOnCharAux c xs []
    else splitOnCharAux c xs (x :: acc)

def jsSplitChar (c : Char) (s : String) : List String :=
  (splitOnCharAux c s.data []).map (fun l => String.mk l)

/-- Decimal parse of a digit string. -/
def parseNatChars (cs : List Char) : Option ℕ :=
  if cs.isEmpty then none
  else cs.foldl (fun acc c =>
    acc.bind (fun n => if c.isDigit then some (n * 10 + (c.toNat - 48)) else none))
    (some 0)

/-- `Number(s) || 0` for the digit strings the program feeds it
("08", "30", ""); a non-numeric string gives NaN which `|| 0` collapses
to 0, modelled by the parse-failure case. -/
def jsNumOr0 (s : String) : ℚ :=
  match parseNatChars s.data with
  | some n => (n : ℚ)
  | none => 0

/-- `timeToMinutes` of `scoring.ts`: parse "HH:MM" to minutes. -/
def timeToMinutes (timeStr : String) : ℚ :=
  let parts := jsSplitChar ':' timeStr
  jsNumOr0 (parts.getD 0 "") * 60 + jsNumOr0 (parts.getD 1 "")

/-- `isOperatingToday` of `scoring.ts`. -/
def isOperatingToday (clock : Clock) (resort : Resort) : Bool :=
  let isWeekend := clock.dayOfWeek == 0 || clock.dayOfWeek == 6
  match resort.operatingHours with
  | none => true
  | some operating =>
    match (if isWeekend then operating.weekends else operating.weekdays) with
    | none => true
    | some hoursStr =>
      let timeRange := jsSplitChar '-' hoursStr
      if timeRange.length ≠ 2 then true
      else
        let openTime := timeRange.getD 0 ""
        let closeTime := timeRange.getD 1 ""
        if openTime = "" ∨ closeTime = "" then true
        else
          let currentTime : ℚ := clock.minutesOfDay
          decide (timeToMinutes openTime ≤ currentTime ∧
                  currentTime ≤ timeToMinutes closeTime)

/-- `isWeekday` of `scoring.ts` (Monday..Friday). -/
def isWeekday (clock : Clock) : Bool :=
  decide (1 ≤ clock.dayOfWeek) && decide (clock.dayOfWeek ≤ 5)

/-- `normalizeSnowDepth` of `scoring.ts`, transcribed literally —
including the `(50 - 100)` denominator of the third segment. -/
def normalizeSnowDepth (depth : ℚ) : ℚ :=
  if depth ≤ 20 then depth
  else if depth ≤ 50 then 20 + (depth - 20) * (60 - 20) / (50 - 20)
  else if depth ≤ 100 then 60 + (depth - 50) * (90 - 60) / (50 - 100)
  else 90 + jsMin 10 ((depth - 100) / 10)

/-- `getQualityBonus` of `scoring.ts`. -/
def getQualityBonus (resort : Resort) : ℚ :=
  let bonus : ℚ := 0
  let bonus := if resort.hasPark then bonus + 5 else bonus
  let bonus := if resort.hasNightRiding then bonus + 3 else bonus
  if resort.difficulty = "mixed" then bonus + 2 else bonus

/-- The justification template chosen by `generateReason` /
`calculateScore`, with its interpolated numbers kept structurally
(string formatting of numbers is a display concern). -/
inductive Reason where
  | closedUntil : Option ℤ → Reason
  | closedToday : Reason
  | excellent : ℚ → Reason
  | good : ℚ → Reason
  | decent : ℚ → ℚ → ℚ → Reason
  | limited : ℚ → ℚ → ℚ → Reason
deriving DecidableEq

/-- `generateReason` of `scoring.ts`: four score bands. -/
def generateReason (resort : Resort) (score : ℚ) : Reason :=
  let snowDepth := jsOr resort.mountainDepth 0
  let liftsOpen := jsOr resort.liftsOpen 0
  let liftsTotal := jsOr resort.liftsTotal 0
  if score ≥ 70 then Reason.excellent snowDepth
  else if score ≥ 50 then Reason.good snowDepth
  else if score ≥ 30 then Reason.decent snowDepth liftsOpen liftsTotal
  else Reason.limited snowDepth liftsOpen liftsTotal

structure ScoreResult where
  score : ℚ
  status : ScoreStatus
  reason : Reason
  openingDate : Option ℤ := none
deriving DecidableEq

/-- `calculateScore` of `scoring.ts`.  Note the second pre-filter tests
`resort.liftsOpen === 0` (strict equality with the number 0), so an
absent lift count does not trigger it. -/
def calculateScore (clock : Clock) (resort : Resort) : ScoreResult :=
  if resort.seasonStatus = SeasonStatus.CLOSED then
    { score := 0
      status := ScoreStatus.CLOSED
      openingDate := resort.openingDate
      reason := Reason.closedUntil resort.openingDate }
  else if resort.liftsOpen = some 0 ∧ isOperatingToday clock resort = false then
    { score := 0
      status := ScoreStatus.CLOSED_TODAY
      reason := Reason.closedToday }
  else
    let snowScore := normalizeSnowDepth (jsOr resort.mountainDepth 0) * (1 / 2)
    let newSnowScore := jsMin (jsOr resort.newSnow 0 * 5) 20
    let liftScore := jsOr resort.liftsOpen 0 / jsMax (jsOr resort.liftsTotal 1) 1 * 20
    let qualityBonus := getQualityBonus resort
    let baseScore := snowScore + newSnowScore + liftScore + qualityBonus
    let liftPenalty : ℚ := if jsOr resort.liftsOpen 0 < 1 then 10 else 0
    let weekdayBonus : ℚ := if isWeekday clock then 5 else 0
    let finalScore := jsMax 0 (jsMin 100 (baseScore - liftPenalty + weekdayBonus))
    { score := finalScore
      status := ScoreStatus.OPEN
      reason := generateReason resort finalScore }

/-- A Wednesday at 10:00, used as a concrete clock in witnesses. -/
def exClock : Clock := ⟨3, 600⟩

/-- A CLOSED-for-season destination that nevertheless carries rich
condition data. -/
def exClosedResort : Resort :=
  { id := "saas-fee"
    seasonStatus := SeasonStatus.CLOSED
    openingDate := some 1765065600000
    mountainDepth := some 175
    valleyDepth := some 30
    newSnow := some 12
    liftsOpen := some 8
    liftsTotal := some 23
    hasPark := true
    difficulty := "mixed" }

/-- Claim C1: for every destination whose season status is CLOSED,
`calculateScore` returns score 0 and status CLOSED, regardless of any
condition values (depths, new snow, lift counts) supplied with it. -/
theorem calculateScore_closed_season (clock : Clock) (resort : Resort)
    (h : resort.seasonStatus = SeasonStatus.CLOSED) :
    (calculateScore clock resort).score = 0 ∧
    (calculateScore clock resort).status = ScoreStatus.CLOSED := by
  simp [calculateScore, h]

theorem calculateScore_closed_season_witness :
    exClosedResort.seasonStatus = SeasonStatus.CLOSED ∧
    ((calculateScore exClock exClosedResort).score = 0 ∧
     (calculateScore exClock exClosedResort).status = ScoreStatus.CLOSED) :=
  ⟨rfl, calculateScore_closed_season exClock exClosedResort rfl⟩

/-- Claim C2: evaluating `normalizeSnowDepth` at the points named by the
claim.  The third segment divides by `(50 - 100) = -50`, so
`normalizeSnowDepth 100 = 30` (the claim expects 90) and the function is
decreasing on (50, 100]: `normalizeSnowDepth 60 = 54 < 60 =
normalizeSnowDepth 50`.  The first two boundary values do hold. -/
theorem normalizeSnowDepth_bug_eval :
    normalizeSnowDepth 20 = 20 ∧
    normalizeSnowDepth 50 = 60 ∧
    normalizeSnowDepth 100 = 30 ∧
    normalizeSnowDepth 60 = 54 ∧
    ¬ normalizeSnowDepth 50 ≤ normalizeSnowDepth 60 := by
  refine ⟨?_, ?_, ?_, ?_, ?_⟩ <;> norm_num [normalizeSnowDepth, jsMin]

/-- A season-OPEN destination with an unknown (absent) lift count and
configured operating hours. -/
def exUnknownLiftsResort : Resort :=
  { id := "engelberg-titlis"
    seasonStatus := SeasonStatus.OPEN
    mountainDepth := some 20
    liftsOpen := none
    liftsTotal := none
    difficulty := "advanced"
    operatingHours := some { weekdays := some "08:00-16:00"
                             weekends := some "08:00-16:00" } }

/-- A Wednesday at 20:00, outside the 08:00-16:00 window. -/
def exEveningClock : Clock := ⟨3, 1200⟩

/-- Claim C9, counterexample: with season OPEN, lift count unknown
(absent) and the clock outside the configured operating-hours window,
`calculateScore` does not return CLOSED_TODAY — the pre-filter tests
`liftsOpen === 0`, which an absent count fails — and the score is 5,
not 0. -/
theorem calculateScore_unknown_lifts_counterexample :
    exUnknownLiftsResort.seasonStatus ≠ SeasonStatus.CLOSED ∧
    exUnknownLiftsResort.liftsOpen = none ∧
    isOperatingToday exEveningClock exUnknownLiftsResort = false ∧
    (calculateScore exEveningClock exUnknownLiftsResort).status = ScoreStatus.OPEN ∧
    (calculateScore exEveningClock exUnknownLiftsResort).score = 5 := by
  refine ⟨by decide, rfl, ?_, ?_, ?_⟩ <;>
    norm_num +decide [exUnknownLiftsResort, exEveningClock, calculateScore,
      isOperatingToday, isWeekday, jsSplitChar, splitOnCharAux, timeToMinutes,
      jsNumOr0, parseNatChars, normalizeSnowDepth, getQualityBonus, generateReason,
      jsOr, jsMin, jsMax, show Char.toNat '8' = 56 from rfl,
      show Char.toNat '1' = 49 from rfl, show Char.toNat '6' = 54 from rfl]

/-- Claim C9 as amended: for a destination whose season status is not
CLOSED, if its lifts-open count is exactly zero (an unknown count does
not trigger this rule) and the destination is outside its configured
operating-hours window for the current day-of-week category (no
configured hours counting as always within hours), `calculateScore`
returns score 0 and status CLOSED_TODAY. -/
theorem calculateScore_closed_today (clock : Clock) (resort : Resort)
    (hSeason : resort.seasonStatus ≠ SeasonStatus.CLOSED)
    (hLifts : resort.liftsOpen = some 0)
    (hHours : isOperatingToday clock resort = false) :
    (calculateScore clock resort).score = 0 ∧
    (calculateScore clock resort).status = ScoreStatus.CLOSED_TODAY := by
  simp [calculateScore, hSeason, hLifts, hHours]

/-- The same destination with a zero (rather than unknown) lift count. -/
def exZeroLiftsResort : Resort :=
  { exUnknownLiftsResort with liftsOpen := some 0 }

theorem calculateScore_closed_today_witness :
    (exZeroLiftsResort.seasonStatus ≠ SeasonStatus.CLOSED ∧
     exZeroLiftsResort.liftsOpen = some 0 ∧
     isOperatingToday exEveningClock exZeroLiftsResort = false) ∧
    ((calculateScore exEveningClock exZeroLiftsResort).score = 0 ∧
     (calculateScore exEveningClock exZeroLiftsResort).status = ScoreStatus.CLOSED_TODAY) :=
  have hHours : isOperatingToday exEveningClock exZeroLiftsResort = false := by
    norm_num +decide [exZeroLiftsResort, exUnknownLiftsResort, exEveningClock,
      isOperatingToday, jsSplitChar, splitOnCharAux, timeToMinutes, jsNumOr0,
      parseNatChars, show Char.toNat '8' = 56 from rfl,
      show Char.toNat '1' = 49 from rfl, show Char.toNat '6' = 54 from rfl]
  ⟨⟨by decide, rfl, hHours⟩,
   calculateScore_closed_today exEveningClock exZeroLiftsResort
     (by decide) rfl hHours⟩

/-- JS `Math.round`: round half towards positive infinity. -/
def jsRound (x : ℚ) : ℤ := ⌊x + 1 / 2⌋

/-- The curated mountain-pass identities of `estimateDriveTime`
(`recommendations.ts`, drive-time service). -/
def challengingRoutes : List String :=
  ["lauchernalp-loetschental", "saas-fee", "zermatt", "obergoms-goms", "realp"]

/-- `estimateDriveTime(distanceKm, resortId?)` of the drive-time
service: speed/base-delay defaults of 80 km/h and 15 min, overridden by
the pass-route tier, then the two distance tiers. -/
def estimateDriveTime (distanceKm : ℚ) (resortId : Option String) : ℤ :=
  let speedKmh : ℚ := 80
  let baseDelay : ℚ := 15
  let tier :=
    if challengingRoutes.contains (resortId.getD "") then ((45 : ℚ), (45 : ℚ))
    else if distanceKm ≤ 50 then (100, 10)
    else if distanceKm > 150 then (60, 20)
    else (speedKmh, baseDelay)
  let driveTimeHours := distanceKm / tier.1
  let driveTimeMinutes := driveTimeHours * 60
  jsRound (driveTimeMinutes + tier.2)

/-- The tier policy exactly as the claim words it: four tiers evaluated
in priority order, duration = distance/speed in minutes plus the base
delay, rounded to the nearest minute. -/
def estimateDriveTimeSpec (distanceKm : ℚ) (resortId : Option String) : ℤ :=
  if challengingRoutes.contains (resortId.getD "") then
    jsRound (distanceKm / 45 * 60 + 45)
  else if distanceKm ≤ 50 then
    jsRound (distanceKm / 100 * 60 + 10)
  else if distanceKm > 150 then
    jsRound (distanceKm / 60 * 60 + 20)
  else
    jsRound (distanceKm / 80 * 60 + 15)

/-- Claim C7: the geometric fallback drive-time estimate agrees, for
every distance and identity, with the claimed four-tier policy — pass
routes short-circuit at 45 km/h + 45 min, then distance ≤ 50 km gives
100 km/h + 10 min, distance > 150 km gives 60 km/h + 20 min, everything
else 80 km/h + 15 min, rounded to the nearest minute. -/
theorem estimateDriveTime_tiers (distanceKm : ℚ) (resortId : Option String) :
    estimateDriveTime distanceKm resortId = estimateDriveTimeSpec distanceKm resortId := by
  unfold estimateDriveTime estimateDriveTimeSpec
  split_ifs <;> rfl

/-- A row of the conditions store (`mockDb.conditions` in
`database/index.ts`). -/
structure ConditionRow where
  resort_id : String
  scraped_at : ℤ
  mountain_depth : Option ℚ := none
  valley_depth : Option ℚ := none
  new_snow : Option ℚ := none
  lifts_open : Option ℚ := none
  lifts_total : Option ℚ := none
  last_update : Option ℤ := none
deriving DecidableEq

/-- The `Conditions` record handed to callers (`types/index.ts`). -/
structure Conditions where
  resortId : String
  scrapedAt : ℤ
  mountainDepth : Option ℚ := none
  valleyDepth : Option ℚ := none
  newSnow : Option ℚ := none
  liftsOpen : Option ℚ := none
  liftsTotal : Option ℚ := none
  lastUpdate : ℤ
deriving DecidableEq

/-- JS `x ? new Date(x) : new Date()`: a missing or zero (falsy)
timestamp falls back to the current time. -/
def jsOrDate (x : Option ℤ) (now : ℤ) : ℤ :=
  match x with
  | none => now
  | some t => if t = 0 then now else t

/-- The row-to-`Conditions` conversion shared by `getLatestConditions`
and `getAllLatestConditions` (`dataStorage.ts`). -/
def rowToConditions (resortId : String) (row : ConditionRow) (now : ℤ) : Conditions :=
  { resortId := resortId
    scrapedAt := row.scraped_at
    mountainDepth := row.mountain_depth
    valleyDepth := row.valley_depth
    newSnow := row.new_snow
    liftsOpen := row.lifts_open
    liftsTotal := row.lifts_total
    lastUpdate := jsOrDate row.last_update now }

/-- `statements.insertConditions.run` (`database/index.ts`): pushes a
new row with `scraped_at` set to the current time — it never replaces
an existing row. -/
def insertConditions (db : List ConditionRow) (data : ConditionRow) (now : ℤ) :
    List ConditionRow :=
  db ++ [{ data with scraped_at := now }]

/-- `DataStorageService.getLatestConditions` via
`statements.getLatestConditions.get`: `Array.prototype.find` — the
FIRST row stored for the identity, with no freshness check. -/
def getLatestConditions (db : List ConditionRow) (resortId : String) (now : ℤ) :
    Option Conditions :=
  (db.find? (fun c => c.resort_id == resortId)).map
    (fun row => rowToConditions resortId row now)

/-- One step of the grouping loop in
`DataStorageService.getAllLatestConditions`: keep, per identity, the
row with the greatest `scraped_at` (insertion-ordered map). -/
def latestByResortStep (acc : List (String × ConditionRow)) (c : ConditionRow) :
    List (String × ConditionRow) :=
  match acc.find? (fun p => p.1 == c.resort_id) with
  | none => acc ++ [(c.resort_id, c)]
  | some existing =>
    if existing.2.scraped_at < c.scraped_at then
      acc.map (fun q => if q.1 == c.resort_id then (c.resort_id, c) else q)
    else acc

def latestByResort (db : List ConditionRow) : List (String × ConditionRow) :=
  db.foldl latestByResortStep []

/-- `DataStorageService.getAllLatestConditions`: newest row per
identity, converted; again with no freshness check. -/
def getAllLatestConditions (db : List ConditionRow) (now : ℤ) :
    List (String × Conditions) :=
  (latestByResort db).map (fun p => (p.1, rowToConditions p.1 p.2 now))

/-- 24 hours in milliseconds (the freshness window named by the spec). -/
def msPerDay : ℤ := 24 * 60 * 60 * 1000

lemma find?_isSome_append {α : Type} (p : α → Bool) (l₁ l₂ : List α) :
    ((l₁ ++ l₂).find? p).isSome = ((l₁.find? p).isSome || (l₂.find? p).isSome) := by
  induction l₁ with
  | nil => simp
  | cons x xs ih =>
    by_cases h : p x <;> simp [List.find?_cons, h, ih]

lemma find?_fst_isSome_map {β γ : Type} (f : String × β → String × γ)
    (hf : ∀ q, (f q).1 = q.1) (l : List (String × β)) (id : String) :
    (((l.map f).find? (fun p => p.1 == id)).isSome) =
    ((l.find? (fun p => p.1 == id)).isSome) := by
  induction l with
  | nil => simp
  | cons x xs ih =>
    by_cases h : (x.1 == id) = true
    · have hfx : ((f x).1 == id) = true := by rw [hf x]; exact h
      simp [List.find?_cons, hfx, h]
    · have h' : (x.1 == id) = false := by simpa using h
      have hfx : ((f x).1 == id) = false := by rw [hf x]; exact h'
      simp only [List.find?_map] at ih
      simp [List.find?_cons, hfx, h', ih]

lemma latestByResortStep_key (acc : List (String × ConditionRow)) (c : ConditionRow)
    (id : String)
    (h : ((acc.find? (fun p => p.1 == id)).isSome = true) ∨ c.resort_id = id) :
    ((latestByResortStep acc c).find? (fun p => p.1 == id)).isSome = true := by
  unfold latestByResortStep
  cases hfind : acc.find? (fun p => p.1 == c.resort_id) with
  | none =>
    rw [find?_isSome_append]
    rcases h with h | h
    · simp [h]
    · simp [List.find?_cons, h]
  | some q =>
    have hkey : (q.1 == c.resort_id) = true := by
      have := List.find?_some hfind
      simpa using this
    by_cases hlt : q.2.scraped_at < c.scraped_at
    · simp only [hlt, if_true]
      rw [find?_fst_isSome_map]
      · rcases h with h | h
        · exact h
        · subst h
          rw [hfind]
          rfl
      · intro p
        by_cases hp : (p.1 == c.resort_id) <;> simp [hp]
        exact (eq_of_beq hp).symm
    · simp only [hlt, if_false]
      rcases h with h | h
      · exact h
      · subst h
        rw [hfind]
        rfl

lemma latestByResort_key (db : List ConditionRow) (acc : List (String × ConditionRow))
    (id : String)
    (h : (∃ c ∈ db, c.resort_id = id) ∨ (acc.find? (fun p => p.1 == id)).isSome = true) :
    ((db.foldl latestByResortStep acc).find? (fun p => p.1 == id)).isSome = true := by
  induction db generalizing acc with
  | nil =>
    rcases h with ⟨c, hc, _⟩ | h
    · exact absurd hc (List.not_mem_nil c)
    · exact h
  | cons c db ih =>
    rw [List.foldl_cons]
    apply ih
    rcases h with ⟨d, hd, hid⟩ | h
    · rcases List.mem_cons.mp hd with rfl | hd
      · exact Or.inr (latestByResortStep_key acc _ id (Or.inr hid))
      · exact Or.inl ⟨d, hd, hid⟩
    · exact Or.inr (latestByResortStep_key acc _ id (Or.inl h))

/-- A condition row observed at epoch 0. -/
def exStaleRow : ConditionRow :=
  { resort_id := "engelberg-titlis", scraped_at := 0, mountain_depth := some 83,
    lifts_open := some 1, lifts_total := some 13 }

def exStaleDb : List ConditionRow := [exStaleRow]

/-- 25 hours after `exStaleRow` was observed. -/
def exLateNow : ℤ := 25 * 60 * 60 * 1000

/-- Claim C4, counterexample: a stored record 25 hours old — more than
the 24-hour freshness window — is still returned by both
`getLatestConditions` and `getAllLatestConditions`; neither applies any
age filter. -/
theorem getLatestConditions_stale_counterexample :
    exLateNow - exStaleRow.scraped_at > msPerDay ∧
    (getLatestConditions exStaleDb "engelberg-titlis" exLateNow).isSome = true ∧
    ((getAllLatestConditions exStaleDb exLateNow).find?
      (fun p => p.1 == "engelberg-titlis")).isSome = true := by
  refine ⟨by decide, ?_, ?_⟩ <;> decide

/-- Claim C4 as amended: a stored condition record whose observation
timestamp is more than 24 hours before the current time is still
treated as present — `getLatestConditions` and
`getAllLatestConditions` apply no freshness filtering, so presence
depends only on a row with the identity existing, never on its age. -/
theorem latest_ignores_freshness (db : List ConditionRow) (row : ConditionRow)
    (now : ℤ) (hmem : row ∈ db) (hstale : now - row.scraped_at > msPerDay) :
    (getLatestConditions db row.resort_id now).isSome = true ∧
    ((getAllLatestConditions db now).find?
      (fun p => p.1 == row.resort_id)).isSome = true := by
  constructor
  · unfold getLatestConditions
    have hsome : (db.find? (fun c => c.resort_id == row.resort_id)).isSome = true := by
      rw [List.find?_isSome]
      exact ⟨row, hmem, by simp⟩
    cases hfind : db.find? (fun c => c.resort_id == row.resort_id) with
    | none => rw [hfind] at hsome; simp at hsome
    | some r => simp [hfind]
  · unfold getAllLatestConditions
    have hmap := find?_fst_isSome_map
      (fun p : String × ConditionRow => (p.1, rowToConditions p.1 p.2 now))
      (fun q => rfl) (latestByResort db) row.resort_id
    rw [hmap]
    exact latestByResort_key db [] row.resort_id (Or.inl ⟨row, hmem, rfl⟩)

theorem latest_ignores_freshness_witness :
    (exStaleRow ∈ exStaleDb ∧ exLateNow - exStaleRow.scraped_at > msPerDay) ∧
    ((getLatestConditions exStaleDb exStaleRow.resort_id exLateNow).isSome = true ∧
     ((getAllLatestConditions exStaleDb exLateNow).find?
       (fun p => p.1 == exStaleRow.resort_id)).isSome = true) :=
  ⟨⟨by decide, by decide⟩,
   latest_ignores_freshness exStaleDb exStaleRow exLateNow (by decide) (by decide)⟩

/-- An initial condition record for "zermatt" and a newer replacement
with a different depth. -/
def exFirstRow : ConditionRow :=
  { resort_id := "zermatt", scraped_at := 0, mountain_depth := some 50 }

def exSecondRow : ConditionRow :=
  { resort_id := "zermatt", scraped_at := 0, mountain_depth := some 80 }

/-- The store after upserting `exFirstRow` at t=1000 and then the
newer `exSecondRow` at t=2000. -/
def exTwiceDb : List ConditionRow :=
  insertConditions (insertConditions [] exFirstRow 1000) exSecondRow 2000

/-- Claim C5: after upserting a record and then a newer-timestamped
record for the same identity, `getLatestConditions` still returns the
FIRST record (depth 50, scraped at 1000), not the new one — the mock
`insertConditions` pushes instead of replacing, and the mock
`getLatestConditions` statement takes the first match.
`getAllLatestConditions`, by contrast, does return the newest record
(depth 80), so the two accessors disagree. -/
theorem getLatestConditions_first_wins_eval :
    ((getLatestConditions exTwiceDb "zermatt" 3000).map (fun c => c.mountainDepth))
      = some (some 50) ∧
    ((getLatestConditions exTwiceDb "zermatt" 3000).map (fun c => c.scrapedAt))
      = some 1000 ∧
    (((getAllLatestConditions exTwiceDb 3000).find? (fun p => p.1 == "zermatt")).map
      (fun p => p.2.mountainDepth)) = some (some 80) := by
  refine ⟨?_, ?_, ?_⟩ <;> decide

/-- One row of the `drive_times` table (`database/index.ts`). -/
structure DriveRow where
  resort_id : String
  origin : String
  drive_time_minutes : ℤ
  distance_km : ℚ
  cached_at : ℤ
deriving DecidableEq

/-- The `DriveTime` record handed to callers (`types/index.ts`). -/
structure DriveTime where
  resortId : String
  origin : String
  driveTimeMinutes : ℤ
  distanceKm : ℚ
  cachedAt : ℤ
deriving DecidableEq

/-- One year in milliseconds (`dataStorage.ts`). -/
def yearMs : ℤ := 365 * 24 * 60 * 60 * 1000

/-- `driveTimeStatements.insertOrUpdate`: SQL `INSERT OR REPLACE` on
`UNIQUE(resort_id, origin)` — the conflicting row is deleted and the
new row inserted. -/
def storeDriveTime (db : List DriveRow) (row : DriveRow) : List DriveRow :=
  (db.filter (fun r => !(r.resort_id == row.resort_id && r.origin == row.origin)))
    ++ [row]

/-- `DataStorageService.getDriveTime`: look the row up and serve it
unless `cached_at < now - 1 year`. -/
def getDriveTime (db : List DriveRow) (resortId origin : String) (now : ℤ) :
    Option DriveTime :=
  match db.find? (fun r => r.resort_id == resortId && r.origin == origin) with
  | none => none
  | some row =>
    if row.cached_at < now - yearMs then none
    else some { resortId := row.resort_id, origin := row.origin,
                driveTimeMinutes := row.drive_time_minutes,
                distanceKm := row.distance_km, cachedAt := row.cached_at }

/-- A mapping entry of the static registry (`resortMapping.ts`). -/
structure ResortMapping where
  bergfexName : String
  internalId : String
  resort : Resort
deriving DecidableEq

/-- Hedingen, the fixed origin of the drive-time service. -/
def HEDINGEN_COORDS : Coordinates := ⟨47.2981, 8.4483⟩

/-- The route label picked by `getDriveEstimate` from the destination
coordinates. -/
def routeFor (resort : ResortMapping) : String :=
  if resort.resort.coordinates.lng < 8 then "A4 → A9 → Valais"
  else if resort.resort.coordinates.lat > 47 then "A4 → A3 → Eastern Switzerland"
  else "A4 → A2"

structure DriveEstimate where
  resortId : String
  distanceKm : ℚ
  driveTimeMinutes : ℤ
  route : String
deriving DecidableEq

/-- `getDriveEstimate` of the drive-time service, as a state-passing
function.  `hav` abstracts `calculateDistance` (the pure haversine
formula over transcendental functions); `api` is the outcome of the
Google Routes call (`none` = missing key or any failure); the returned
`ℕ` counts external-call attempts (0 on a cache hit, 1 otherwise). -/
def getDriveEstimate (hav : Coordinates → Coordinates → ℚ) (db : List DriveRow)
    (resort : ResortMapping) (now : ℤ) (api : Option (ℚ × ℤ)) :
    DriveEstimate × List DriveRow × ℕ :=
  match getDriveTime db resort.internalId "Hedingen" now with
  | some cached =>
    ({ resortId := resort.internalId, distanceKm := cached.distanceKm,
       driveTimeMinutes := cached.driveTimeMinutes, route := routeFor resort },
     db, 0)
  | none =>
    match api with
    | some g =>
      let driveTimeData : DriveRow :=
        { resort_id := resort.internalId, origin := "Hedingen",
          drive_time_minutes := g.2, distance_km := g.1, cached_at := now }
      ({ resortId := resort.internalId, distanceKm := g.1, driveTimeMinutes := g.2,
         route := routeFor resort },
       storeDriveTime db driveTimeData, 1)
    | none =>
      let distance := hav HEDINGEN_COORDS resort.resort.coordinates
      let driveTime := estimateDriveTime distance (some resort.internalId)
      let roundedKm : ℚ := (jsRound (distance * 10) : ℚ) / 10
      let estimateData : DriveRow :=
        { resort_id := resort.internalId, origin := "Hedingen",
          drive_time_minutes := driveTime, distance_km := roundedKm, cached_at := now }
      ({ resortId := resort.internalId, distanceKm := roundedKm,
         driveTimeMinutes := driveTime, route := routeFor resort },
       storeDriveTime db estimateData, 1)

lemma find?_filtered_append {α : Type} (p : α → Bool) (l : List α) (x : α)
    (hx : p x = true) :
    ((l.filter (fun r => !(p r))) ++ [x]).find? p = some x := by
  induction l with
  | nil => simp [List.find?_cons, hx]
  | cons y ys ih =>
    by_cases hy : p y = true
    · simp [List.filter_cons, hy, ih]
    · have hy' : p y = false := by simpa using hy
      simp [List.filter_cons, hy', List.find?_cons, ih]

lemma getDriveTime_store (db : List DriveRow) (row : DriveRow) (now : ℤ)
    (hfresh : ¬ row.cached_at < now - yearMs) :
    getDriveTime (storeDriveTime db row) row.resort_id row.origin now =
      some { resortId := row.resort_id, origin := row.origin,
             driveTimeMinutes := row.drive_time_minutes,
             distanceKm := row.distance_km, cachedAt := row.cached_at } := by
  unfold getDriveTime storeDriveTime
  rw [find?_filtered_append _ db row (by simp)]
  simp [hfresh]

/-- A cached drive time for "zermatt" stored at epoch 0. -/
def exDriveRow : DriveRow :=
  { resort_id := "zermatt", origin := "Hedingen", drive_time_minutes := 140,
    distance_km := 165, cached_at := 0 }

/-- Claim C6, counterexample: an entry whose age is EXACTLY one year —
hence not "less than 1 year old" — is still served from the cache:
`getDriveTime` rejects only `cached_at < now - 1 year`, a non-strict
age bound. -/
theorem getDriveTime_year_boundary_counterexample :
    ¬ (yearMs - exDriveRow.cached_at < yearMs) ∧
    getDriveTime [exDriveRow] "zermatt" "Hedingen" yearMs =
      some { resortId := "zermatt", origin := "Hedingen", driveTimeMinutes := 140,
             distanceKm := 165, cachedAt := 0 } := by
  refine ⟨by decide, by decide⟩

/-- Claim C6 as amended: (1) calling the travel-cost estimate twice in
succession for the same destination and origin issues at most one
external-call attempt in total — the second call is served from the
cache — and returns identical distance and duration both times, on
every cache state, external-call outcome and fallback distance
function; (2) a cached entry is served exactly when it is at most
1 year old (the code's bound is non-strict), and otherwise treated as
absent. -/
theorem getDriveEstimate_cache_correct :
    (∀ (hav : Coordinates → Coordinates → ℚ) (db : List DriveRow)
        (resort : ResortMapping) (now : ℤ) (api1 api2 : Option (ℚ × ℤ)),
      (getDriveEstimate hav db resort now api1).2.2 +
        (getDriveEstimate hav (getDriveEstimate hav db resort now api1).2.1
          resort now api2).2.2 ≤ 1 ∧
      (getDriveEstimate hav (getDriveEstimate hav db resort now api1).2.1
        resort now api2).1.distanceKm =
        (getDriveEstimate hav db resort now api1).1.distanceKm ∧
      (getDriveEstimate hav (getDriveEstimate hav db resort now api1).2.1
        resort now api2).1.driveTimeMinutes =
        (getDriveEstimate hav db resort now api1).1.driveTimeMinutes) ∧
    (∀ (db : List DriveRow) (resortId origin : String) (now : ℤ) (row : DriveRow),
      db.find? (fun r => r.resort_id == resortId && r.origin == origin) = some row →
      (now - row.cached_at ≤ yearMs →
        getDriveTime db resortId origin now =
          some { resortId := row.resort_id, origin := row.origin,
                 driveTimeMinutes := row.drive_time_minutes,
                 distanceKm := row.distance_km, cachedAt := row.cached_at }) ∧
      (yearMs < now - row.cached_at →
        getDriveTime db resortId origin now = none)) := by
  constructor
  · intro hav db resort now api1 api2
    have hfresh : ¬ (now : ℤ) < now - yearMs := by
      simp only [yearMs]; omega
    cases h1 : getDriveTime db resort.internalId "Hedingen" now with
    | some cached =>
      simp [getDriveEstimate, h1]
    | none =>
      cases ha : api1 with
      | some g =>
        have hstore := getDriveTime_store db
          { resort_id := resort.internalId, origin := "Hedingen",
            drive_time_minutes := g.2, distance_km := g.1, cached_at := now }
          now hfresh
        dsimp only at hstore
        simp [getDriveEstimate, h1, hstore]
      | none =>
        have hstore := getDriveTime_store db
          { resort_id := resort.internalId, origin := "Hedingen",
            drive_time_minutes :=
              estimateDriveTime (hav HEDINGEN_COORDS resort.resort.coordinates)
                (some resort.internalId),
            distance_km :=
              (jsRound ((hav HEDINGEN_COORDS resort.resort.coordinates) * 10) : ℚ) / 10,
            cached_at := now }
          now hfresh
        dsimp only at hstore
        simp [getDriveEstimate, h1, hstore]
  · intro db resortId origin now row hfind
    constructor
    · intro hage
      have hcond : ¬ row.cached_at < now - yearMs := by omega
      unfold getDriveTime
      rw [hfind]
      simp [hcond]
    · intro hage
      have hcond : row.cached_at < now - yearMs := by omega
      unfold getDriveTime
      rw [hfind]
      simp [hcond]

theorem getDriveEstimate_cache_correct_witness :
    ([exDriveRow].find?
      (fun r => r.resort_id == "zermatt" && r.origin == "Hedingen") = some exDriveRow) ∧
    ((5 : ℤ) - exDriveRow.cached_at ≤ yearMs) ∧
    getDriveTime [exDriveRow] "zermatt" "Hedingen" 5 =
      some { resortId := "zermatt", origin := "Hedingen", driveTimeMinutes := 140,
             distanceKm := 165, cachedAt := 0 } :=
  ⟨by decide, by decide,
   (getDriveEstimate_cache_correct.2 [exDriveRow] "zermatt" "Hedingen" 5 exDriveRow
     (by decide)).1 (by decide)⟩

/-- `word.charAt(0).toUpperCase() + word.slice(1).toLowerCase()`
(ASCII — resort ids are ASCII slugs). -/
def jsCapitalize (word : String) : String :=
  match word.data with
  | [] => ""
  | c :: rest => String.mk (c.toUpper :: rest.map Char.toLower)

/-- `Array.prototype.join(sep)`. -/
def joinWith (sep : String) : List String → String
  | [] => ""
  | [x] => x
  | x :: y :: xs => x ++ sep ++ joinWith sep (y :: xs)

def charsHavePrefix : List Char → List Char → Bool
  | _, [] => true
  | [], _ :: _ => false
  | x :: xs, p :: ps => x == p && charsHavePrefix xs ps

/-- Replace the first occurrence of `pat` in `s` — JS
`String.prototype.replace` with a plain-string pattern. -/
def replaceFirstChars (s pat repl : List Char) : List Char :=
  match s with
  | [] => []
  | x :: xs =>
    if charsHavePrefix (x :: xs) pat then repl ++ (x :: xs).drop pat.length
    else x :: replaceFirstChars xs pat repl

def jsReplaceFirst (s pat repl : String) : String :=
  String.mk (replaceFirstChars s.data pat.data repl.data)

/-- `formatResortName` of `recommendations.ts`: "survih-samedan" →
"Survih Samedan", with the two Lötschental fix-ups. -/
def formatResortName (resortId : String) : String :=
  let joined := joinWith " " ((jsSplitChar '-' resortId).map jsCapitalize)
  jsReplaceFirst (jsReplaceFirst joined " L " " Lö") " L Tschental" " Lötschental"

/-- The mock mapping `getRecommendations` synthesizes for a resort id
with stored conditions but no registry entry: default Swiss
coordinates, priority 3, mixed difficulty, and a season status derived
from the lift count (`conditions && conditions.liftsOpen &&
conditions.liftsOpen > 0 ? "OPEN" : "CLOSED"`). -/
def mockMapping (resortId : String) (conditions : Option Conditions) : ResortMapping :=
  let displayName := formatResortName resortId
  let isOpen : SeasonStatus :=
    match conditions with
    | none => SeasonStatus.CLOSED
    | some c =>
      match c.liftsOpen with
      | none => SeasonStatus.CLOSED
      | some v => if v ≠ 0 ∧ 0 < v then SeasonStatus.OPEN else SeasonStatus.CLOSED
  { internalId := resortId
    bergfexName := displayName
    resort := { id := resortId, name := displayName, bergfexId := resortId,
                coordinates := ⟨46.8, 8.2⟩, seasonStatus := isOpen, priority := 3,
                difficulty := "mixed", hasPark := false, hasNightRiding := false } }

/-- `conditionsMap.get(resortId)` on the insertion-ordered map. -/
def lookupCond (conditionsMap : List (String × Conditions)) (resortId : String) :
    Option Conditions :=
  (conditionsMap.find? (fun p => p.1 == resortId)).map (fun p => p.2)

/-- The per-id resolution step of `getRecommendations`: an existing
registry mapping if one matches, else the synthesized mock mapping. -/
def resolveMapping (registry : List ResortMapping)
    (conditionsMap : List (String × Conditions)) (resortId : String) : ResortMapping :=
  match registry.find? (fun r => r.internalId == resortId) with
  | some existingMapping => existingMapping
  | none => mockMapping resortId (lookupCond conditionsMap resortId)

/-- The conditions-into-resort merge of `getRecommendations` /
`getResortDetails`: every numeric field becomes `field || 0`. -/
def mergeConditions (resort : Resort) (conditions : Option Conditions) : Resort :=
  { resort with
    mountainDepth := some (jsOr (conditions.bind (fun c => c.mountainDepth)) 0)
    valleyDepth := some (jsOr (conditions.bind (fun c => c.valleyDepth)) 0)
    newSnow := some (jsOr (conditions.bind (fun c => c.newSnow)) 0)
    liftsOpen := some (jsOr (conditions.bind (fun c => c.liftsOpen)) 0)
    liftsTotal := some (jsOr (conditions.bind (fun c => c.liftsTotal)) 0)
    lastUpdate := conditions.map (fun c => c.lastUpdate) }

structure Recommendation where
  resort : Resort
  score : ScoreResult
  driveTime : ℤ
  distance : ℚ
deriving DecidableEq

structure Summary where
  totalConsidered : ℕ
  filteredByDrive : ℕ
  filteredBySeason : ℕ
  filteredByScore : ℕ
  finalCount : ℕ
deriving DecidableEq

structure RecommendationOptions where
  maxDriveTime : ℤ := 180
  minScore : ℚ := 10
  limit : ℕ := 5
  includeClosed : Bool := false
deriving DecidableEq

/-- Insertion step of a stable descending sort by score: the new
element goes after every element whose score is ≥ its own — the order
produced by JS `Array.prototype.sort` (stable) with comparator
`(a, b) => b.score.score - a.score.score`. -/
def insertByScore (x : Recommendation) : List Recommendation → List Recommendation
  | [] => [x]
  | y :: ys =>
    if y.score.score < x.score.score then x :: y :: ys
    else y :: insertByScore x ys

def sortByScoreDesc (l : List Recommendation) : List Recommendation :=
  l.foldl (fun acc x => insertByScore x acc) []

/-- `getRecommendations` of `recommendations.ts` as a pure function:
the condition map and registry are inputs, and the drive-time estimator
is abstracted as `est` (id-resolved mapping ↦ (minutes, km)).  The
travel filter's survivors are computed and counted, but — exactly as in
the source, where `resorts = resortsWithinDriveTime` is never read
again — the scoring loop runs over ALL drive estimates. -/
def getRecommendations (registry : List ResortMapping)
    (conditionsMap : List (String × Conditions))
    (est : ResortMapping → ℤ × ℚ) (clock : Clock)
    (opts : RecommendationOptions) : List Recommendation × Summary :=
  let totalConsidered := conditionsMap.length
  let resorts := conditionsMap.map (fun p => resolveMapping registry conditionsMap p.1)
  let driveEstimates := resorts.map (fun r => (r, est r))
  let resortsWithinDriveTime :=
    (driveEstimates.filter (fun re => decide (re.2.1 ≤ opts.maxDriveTime))).map
      (fun re => re.1)
  let filteredByDrive := resortsWithinDriveTime.length
  let scoredRecommendations := driveEstimates.map (fun re =>
    let conditions := lookupCond conditionsMap re.1.internalId
    let resortWithConditions := mergeConditions re.1.resort conditions
    ({ resort := resortWithConditions
       score := calculateScore clock resortWithConditions
       driveTime := re.2.1
       distance := re.2.2 } : Recommendation))
  let filteredRecommendations :=
    if opts.includeClosed then scoredRecommendations
    else scoredRecommendations.filter
      (fun r => r.resort.seasonStatus == SeasonStatus.OPEN)
  let filteredByScore :=
    filteredRecommendations.filter (fun r => decide (opts.minScore ≤ r.score.score))
  let final := (sortByScoreDesc filteredByScore).take opts.limit
  (final,
   { totalConsidered := totalConsidered
     filteredByDrive := filteredByDrive
     filteredBySeason := filteredRecommendations.length
     filteredByScore := filteredByScore.length
     finalCount := final.length })

/-- `getResortDetails` of `recommendations.ts`: registry lookup first;
an unmapped id returns null before conditions or drive times are even
consulted. -/
def getResortDetails (registry : List ResortMapping) (db : List ConditionRow)
    (est : ResortMapping → ℤ × ℚ) (clock : Clock) (now : ℤ) (resortId : String) :
    Option Recommendation :=
  match registry.find? (fun r => r.internalId == resortId) with
  | none => none
  | some resort =>
    let conditions := getLatestConditions db resortId now
    let resortWithConditions := mergeConditions resort.resort conditions
    let e := est resort
    some { resort := resortWithConditions
           score := calculateScore clock resortWithConditions
           driveTime := e.1
           distance := e.2 }

lemma mem_insertByScore {z x : Recommendation} {l : List Recommendation} :
    z ∈ insertByScore x l ↔ z = x ∨ z ∈ l := by
  induction l with
  | nil => simp [insertByScore]
  | cons y ys ih =>
    rw [insertByScore]
    by_cases hlt : y.score.score < x.score.score
    · simp [hlt]
    · simp [hlt, ih]
      tauto

lemma sorted_insertByScore (x : Recommendation) (l : List Recommendation)
    (h : List.Sorted (fun a b : Recommendation => b.score.score ≤ a.score.score) l) :
    List.Sorted (fun a b : Recommendation => b.score.score ≤ a.score.score)
      (insertByScore x l) := by
  induction l with
  | nil => simp [insertByScore]
  | cons y ys ih =>
    rw [insertByScore]
    rw [List.sorted_cons] at h
    by_cases hlt : y.score.score < x.score.score
    · rw [if_pos hlt]
      rw [List.sorted_cons]
      refine ⟨?_, List.sorted_cons.mpr h⟩
      intro z hz
      rcases List.mem_cons.mp hz with rfl | hz
      · exact le_of_lt hlt
      · exact le_trans (h.1 z hz) (le_of_lt hlt)
    · rw [if_neg hlt]
      rw [List.sorted_cons]
      refine ⟨?_, ih h.2⟩
      intro z hz
      rcases mem_insertByScore.mp hz with rfl | hz
      · exact not_lt.mp hlt
      · exact h.1 z hz

lemma sorted_sortByScoreDesc (l : List Recommendation) :
    List.Sorted (fun a b : Recommendation => b.score.score ≤ a.score.score)
      (sortByScoreDesc l) := by
  have key : ∀ (m : List Recommendation) (acc : List Recommendation),
      List.Sorted (fun a b : Recommendation => b.score.score ≤ a.score.score) acc →
      List.Sorted (fun a b : Recommendation => b.score.score ≤ a.score.score)
        (m.foldl (fun acc x => insertByScore x acc) acc) := by
    intro m
    induction m with
    | nil => intro acc hacc; exact hacc
    | cons x xs ih => intro acc hacc; exact ih _ (sorted_insertByScore x acc hacc)
  exact key l [] (by simp)

/-- Claim C8 as amended: the pipeline's final list is sorted in
descending order of score — equal scores keep their earlier relative
order (JS stable sort), with no priority-weight or identity tie-break —
and is truncated to at most `limit` items. -/
theorem getRecommendations_sorted_limited (registry : List ResortMapping)
    (conditionsMap : List (String × Conditions)) (est : ResortMapping → ℤ × ℚ)
    (clock : Clock) (opts : RecommendationOptions) :
    ((getRecommendations registry conditionsMap est clock opts).1).length ≤ opts.limit ∧
    List.Sorted (fun a b : Recommendation => b.score.score ≤ a.score.score)
      (getRecommendations registry conditionsMap est clock opts).1 := by
  constructor
  · exact List.length_take_le _ _
  · exact List.Pairwise.sublist (List.take_sublist _ _) (sorted_sortByScoreDesc _)

/-- Build a condition record observed at epoch 0. -/
def mkCond (id : String) (depth lifts total : Option ℚ) : Conditions :=
  { resortId := id, scrapedAt := 0, mountainDepth := depth, liftsOpen := lifts,
    liftsTotal := total, lastUpdate := 0 }

/-- The default pipeline options (`maxDriveTime 180, minScore 10,
limit 5, includeClosed false`). -/
def exOptions : RecommendationOptions := {}

/-- Two registry entries that will score identically: "aa" with
priority 1 and "ab" with priority 5. -/
def exRegistry : List ResortMapping :=
  [{ bergfexName := "Resort Aa", internalId := "aa",
     resort := { id := "aa", name := "Resort Aa",
                 coordinates := ⟨46.5, 8.3⟩, seasonStatus := SeasonStatus.OPEN,
                 priority := 1 } },
   { bergfexName := "Resort Ab", internalId := "ab",
     resort := { id := "ab", name := "Resort Ab",
                 coordinates := ⟨46.6, 8.4⟩, seasonStatus := SeasonStatus.OPEN,
                 priority := 5 } }]

def exTieConditionsMap : List (String × Conditions) :=
  [("aa", mkCond "aa" (some 20) (some 2) (some 10)),
   ("ab", mkCond "ab" (some 20) (some 2) (some 10))]

/-- Claim C8, counterexample: two destinations with the identical score
19 come out in input order — "aa" (priority 1) before "ab" (priority
5) — because the sort compares only scores; the claimed
priority-descending tie-break would have put "ab" first. -/
theorem getRecommendations_no_tiebreak_counterexample :
    ((getRecommendations exRegistry exTieConditionsMap (fun _ => (60, 50)) exClock
      exOptions).1.map (fun r => (r.resort.id, r.resort.priority)))
      = [("aa", 1), ("ab", 5)] ∧
    ((getRecommendations exRegistry exTieConditionsMap (fun _ => (60, 50)) exClock
      exOptions).1.map (fun r => r.score.score)) = [19, 19] := by
  constructor <;>
    norm_num +decide [getRecommendations, exRegistry, exTieConditionsMap, exOptions,
      exClock, resolveMapping, mockMapping, lookupCond, mergeConditions, mkCond,
      calculateScore, isOperatingToday, isWeekday, normalizeSnowDepth, getQualityBonus,
      generateReason, jsOr, jsMin, jsMax, sortByScoreDesc, insertByScore,
      beq_eq_decide, List.find?_cons, List.filter_cons, List.foldl_cons]

/-- Ten destinations with stored conditions: r01–r07 within drive time,
r08–r10 beyond it; r06/r07 have zero lifts open (season-CLOSED via the
mock mapping); r05 scores 7.2 < minScore 10; the rest score ≥ 10. -/
def exScenarioConditionsMap : List (String × Conditions) :=
  [("r01", mkCond "r01" (some 20) (some 2) (some 10)),
   ("r02", mkCond "r02" (some 20) (some 2) (some 10)),
   ("r03", mkCond "r03" (some 20) (some 2) (some 10)),
   ("r04", mkCond "r04" (some 20) (some 2) (some 10)),
   ("r05", mkCond "r05" none (some 1) (some 100)),
   ("r06", mkCond "r06" (some 20) (some 0) (some 10)),
   ("r07", mkCond "r07" (some 20) (some 0) (some 10)),
   ("r08", mkCond "r08" (some 120) (some 5) (some 10)),
   ("r09", mkCond "r09" (some 20) (some 2) (some 10)),
   ("r10", mkCond "r10" (some 20) (some 2) (some 10))]

/-- Drive estimates: 300 minutes for r08–r10 (beyond the 180-minute
cut), 60 minutes for the rest. -/
def exScenarioEst : ResortMapping → ℤ × ℚ := fun m =>
  if m.internalId == "r08" || m.internalId == "r09" || m.internalId == "r10"
  then (300, 200) else (60, 50)

/-- Claim C3: evaluating the pipeline on the scenario-C shape (10
destinations, 3 beyond travel time, 2 season-CLOSED, 1 below minScore
10).  The travel-filtered list is computed (`filteredByDrive = 7`) but
never used by the later stages, so the funnel reads
`{10, 7, 8, 7, 5}` — not the claimed `{10, 7, 5, 4, 4}` — and the
final list is crowned by r08 with a 300-minute drive
time (> maxTravelMinutes 180). -/
theorem getRecommendations_travel_filter_bug_eval :
    ((getRecommendations [] exScenarioConditionsMap exScenarioEst exClock
      exOptions).1.map (fun r => (r.resort.id, r.driveTime)))
      = [("r08", 300), ("r01", 60), ("r02", 60), ("r03", 60), ("r04", 60)] ∧
    (getRecommendations [] exScenarioConditionsMap exScenarioEst exClock
      exOptions).2 =
      { totalConsidered := 10, filteredByDrive := 7, filteredBySeason := 8,
        filteredByScore := 7, finalCount := 5 } ∧
    (300 : ℤ) > exOptions.maxDriveTime := by
  refine ⟨?_, ?_, by decide⟩ <;>
    norm_num +decide [getRecommendations, exScenarioConditionsMap, exScenarioEst,
      exOptions, exClock, resolveMapping, mockMapping, lookupCond, mergeConditions,
      mkCond, calculateScore, isOperatingToday, isWeekday, normalizeSnowDepth,
      getQualityBonus, generateReason, jsOr, jsMin, jsMax, sortByScoreDesc,
      insertByScore, beq_eq_decide, List.find?_cons, List.filter_cons,
      List.foldl_cons]

/-- Claim C10: an identity absent from the static registry makes
`getResortDetails` return null even when a current condition record
exists for it, while the recommend pipeline's resolution step
synthesizes a provisional mapping for the same identity — default
coordinates (46.8, 8.2), priority 3, mixed difficulty, and a season
status that is OPEN exactly when the stored lift count is positive. -/
theorem getResortDetails_unmapped_none (registry : List ResortMapping)
    (db : List ConditionRow) (est : ResortMapping → ℤ × ℚ) (clock : Clock)
    (now : ℤ) (conditionsMap : List (String × Conditions)) (resortId : String)
    (hunmapped : ∀ m ∈ registry, m.internalId ≠ resortId)
    (hconds : (getLatestConditions db resortId now).isSome = true) :
    getResortDetails registry db est clock now resortId = none ∧
    resolveMapping registry conditionsMap resortId =
      mockMapping resortId (lookupCond conditionsMap resortId) ∧
    (resolveMapping registry conditionsMap resortId).resort.coordinates = ⟨46.8, 8.2⟩ ∧
    (resolveMapping registry conditionsMap resortId).resort.priority = 3 ∧
    (resolveMapping registry conditionsMap resortId).resort.difficulty = "mixed" ∧
    ((resolveMapping registry conditionsMap resortId).resort.seasonStatus
        = SeasonStatus.OPEN ↔
      ∃ c, lookupCond conditionsMap resortId = some c ∧
        ∃ v, c.liftsOpen = some v ∧ 0 < v) := by
  have hfind : registry.find? (fun r => r.internalId == resortId) = none := by
    rw [List.find?_eq_none]
    intro x hx
    simpa using hunmapped x hx
  refine ⟨?_, ?_, ?_, ?_, ?_, ?_⟩
  · unfold getResortDetails
    rw [hfind]
  · unfold resolveMapping
    rw [hfind]
  all_goals unfold resolveMapping
  all_goals rw [hfind]
  · rfl
  · rfl
  · rfl
  · unfold mockMapping
    cases hc : lookupCond conditionsMap resortId with
    | none => simp
    | some c =>
      cases hov : c.liftsOpen with
      | none => simp [hov]
      | some v =>
        simp only [hov]
        by_cases hv : v ≠ 0 ∧ 0 < v
        · rw [if_pos hv]
          simp only [true_iff]
          exact ⟨c, rfl, v, hov, hv.2⟩
        · rw [if_neg hv]
          constructor
          · intro habs
            exact SeasonStatus.noConfusion habs
          · rintro ⟨c', hc', v', hov', hv'⟩
            rw [Option.some_inj] at hc'
            subst hc'
            rw [hov] at hov'
            rw [Option.some_inj] at hov'
            subst hov'
            exact absurd ⟨ne_of_gt hv', hv'⟩ hv

theorem getResortDetails_unmapped_none_witness :
    ((∀ m ∈ ([] : List ResortMapping), m.internalId ≠ "engelberg-titlis") ∧
     (getLatestConditions exStaleDb "engelberg-titlis" exLateNow).isSome = true) ∧
    (getResortDetails [] exStaleDb (fun _ => (60, 50)) exClock exLateNow
       "engelberg-titlis" = none ∧
     resolveMapping [] [] "engelberg-titlis" =
       mockMapping "engelberg-titlis" (lookupCond [] "engelberg-titlis") ∧
     (resolveMapping [] [] "engelberg-titlis").resort.coordinates = ⟨46.8, 8.2⟩ ∧
     (resolveMapping [] [] "engelberg-titlis").resort.priority = 3 ∧
     (resolveMapping [] [] "engelberg-titlis").resort.difficulty = "mixed" ∧
     ((resolveMapping [] [] "engelberg-titlis").resort.seasonStatus
         = SeasonStatus.OPEN ↔
       ∃ c, lookupCond [] "engelberg-titlis" = some c ∧
         ∃ v, c.liftsOpen = some v ∧ 0 < v)) :=
  ⟨⟨by simp, by decide⟩,
   getResortDetails_unmapped_none [] exStaleDb (fun _ => (60, 50)) exClock exLateNow
     [] "engelberg-titlis" (by simp) (by decide)⟩
